import Mathlib

/-!
Verification development for the ORCD rental portal custom Globus OIDC
authentication backend (`config/coldfront_auth.py`).

The backend is embedded shallowly:

* JSON objects become structures whose fields are `Option`-valued (a `none`
  models an absent key, matching `dict.get`).
* Python string operations are modelled on the character list `String.data`:
  `s.endswith(t)` is `t.data.isSuffixOf s.data`, `c in s` is `s.data.contains c`,
  and `s.split(c)[0]` is the longest prefix of `s` not containing `c`.
* The Django user store (`UserModel.objects`) and the ColdFront `UserProfile`
  table become an explicit `Store` value threaded through the operations; every
  operation returns the resulting store so that "no mutation happened" is a
  provable statement.
* `requests.get` of the JWKS endpoint and `jwt.get_unverified_header` are
  modelled by their outcomes (`FetchOutcome`, `Option TokenHeader`), since the
  backend only branches on those outcomes.
* Raised exceptions become an `AuthError` error value: `SuspiciousOperation`
  and `PermissionDenied` keep their messages; a store uniqueness violation
  during `create_user` (re-raised by the bare `raise`) is `integrityError`.

The `debug_log` calls are pure side effects on a diagnostic sink that is
explicitly out of the behavioral contract, so they are not modelled.
-/

/-- Python truthiness of a string: `if s:` is true iff `s` is non-empty. -/
def pyTruthyStr (s : String) : Bool := !s.data.isEmpty

/-- Python truthiness of an optional string: `None` and `""` are falsy. -/
def pyTruthy : Option String → Bool
  | none => false
  | some s => pyTruthyStr s

/-- Python `s.endswith(suffix)`. -/
def pyEndsWith (s suffix : String) : Bool := suffix.data.isSuffixOf s.data

/-- Python `c in s` for a single character `c`. -/
def pyContains (s : String) (c : Char) : Bool := s.data.contains c

/-- Python `s.split(c)[0]`: everything before the first occurrence of `c`
(the whole string when `c` does not occur). -/
def pySplitHead (s : String) (c : Char) : String :=
  ⟨s.data.takeWhile (fun x => x != c)⟩

/-- Python `s.split(' ', 1)`: the part before the first space and, when a
space occurs, the remainder after that first space. -/
def splitOnceAtSpace (s : String) : String × Option String :=
  if s.data.contains ' ' then
    (⟨s.data.takeWhile (fun x => x != ' ')⟩,
     some ⟨(s.data.dropWhile (fun x => x != ' ')).tail⟩)
  else (s, none)

/-- A JWKS entry as the backend reads it: `key.get('kid')`, `key.get('alg')`,
plus opaque key material that is passed through unchanged. -/
structure Key where
  kid : Option String
  alg : Option String
  material : String
deriving Repr, DecidableEq

/-- The decoded-but-unverified ID token header: `header.get('kid')` and
`header.get('alg')`. Decoding failure (`jwt.exceptions.DecodeError`) is
modelled by passing `none` instead of a header. -/
structure TokenHeader where
  kid : Option String
  alg : Option String
deriving Repr, DecidableEq

/-- Outcome of `requests.get(jwks_url)` followed by `response.json()`:
a transport failure or non-2xx status (`requests.RequestException`, raised by
`get` or by `raise_for_status`), a body that is not JSON (`ValueError` from
`response.json()`), or a parsed document whose `keys` field is the given
optional list (`none` models a JSON document with no `keys` key, read back as
`[]` by `jwks.get('keys', [])`). -/
inductive FetchOutcome where
  | transportError : FetchOutcome
  | invalidJson : FetchOutcome
  | ok : Option (List Key) → FetchOutcome
deriving Repr, DecidableEq

/-- Exceptions the backend raises: `SuspiciousOperation` and
`PermissionDenied` with their messages, and a propagated store-layer
uniqueness violation during user creation. -/
inductive AuthError where
  | suspiciousOperation : String → AuthError
  | permissionDenied : String → AuthError
  | integrityError : AuthError
deriving Repr, DecidableEq

/-- One entry of the `identity_set` claim; `username` is `none` when the
entry has no `username` key (read back as `''` by `identity.get('username', '')`). -/
structure Identity where
  username : Option String
deriving Repr, DecidableEq

/-- The userinfo claims consumed by the backend; each field is `none` when
the corresponding key is absent. -/
structure Claims where
  identity_set : Option (List Identity)
  preferred_username : Option String
  username : Option String
  email : Option String
  given_name : Option String
  family_name : Option String
  name : Option String
deriving Repr, DecidableEq

/-- `GlobusOIDCBackend.retrieve_matching_jwk`, with the JWKS fetch outcome and
the token-header decode outcome as explicit inputs. -/
def retrieve_matching_jwk (fetch : FetchOutcome) (header? : Option TokenHeader) :
    Except AuthError Key :=
  match fetch with
  | .transportError =>
      .error (.suspiciousOperation "Could not fetch JWKS from identity provider")
  | .invalidJson =>
      .error (.suspiciousOperation "Invalid JWKS response from identity provider")
  | .ok keysField =>
      let keys := keysField.getD []
      if keys.isEmpty then
        .error (.suspiciousOperation "JWKS contains no keys")
      else
        match header? with
        | none => .error (.suspiciousOperation "Could not decode ID token header")
        | some header =>
            match keys.find? (fun key => pyTruthy header.kid && key.kid == header.kid) with
            | some key => .ok key
            | none =>
                if keys.length = 1 then
                  .ok (keys.headD ⟨none, none, ""⟩)
                else
                  match keys.find? (fun key => key.alg == header.alg) with
                  | some key => .ok key
                  | none =>
                      .error (.suspiciousOperation
                        "Could not find matching JWKS key for ID token")

/-- `GlobusOIDCBackend.extract_mit_eppn`: first `identity_set` username ending
in `@mit.edu`, else fall back to
`claims.get('preferred_username', claims.get('username'))`. -/
def extract_mit_eppn (claims : Claims) : Option String :=
  let identity_set := claims.identity_set.getD []
  let eppn : Option String :=
    (identity_set.find? fun identity =>
        pyEndsWith (identity.username.getD "") "@mit.edu").map
      fun identity => identity.username.getD ""
  if pyTruthy eppn then eppn
  else
    match claims.preferred_username with
    | some v => some v
    | none => claims.username

/-- `GlobusOIDCBackend.validate_mit_identity`: true iff some `identity_set`
entry has a username ending in `@mit.edu`. -/
def validate_mit_identity (claims : Claims) : Bool :=
  (claims.identity_set.getD []).any fun identity =>
    pyEndsWith (identity.username.getD "") "@mit.edu"

/-- `GlobusOIDCBackend.get_username_from_eppn`: the stem before the first `@`
when the EPPN is truthy and contains `@`, the EPPN itself otherwise. -/
def get_username_from_eppn (eppn : String) : String :=
  if pyTruthyStr eppn && pyContains eppn '@' then pySplitHead eppn '@'
  else eppn

/-- A Django user row, restricted to the fields the backend touches. -/
structure Account where
  username : String
  email : String
  first_name : String
  last_name : String
  is_active : Bool
deriving Repr, DecidableEq

/-- The external account store: the Django user table plus the set of
usernames that own a ColdFront `UserProfile` row. -/
structure Store where
  accounts : List Account
  profiles : List String
deriving Repr, DecidableEq

/-- `UserModel.objects.create_user(username=..., email=...)`: inserts a fresh
active row with empty name fields, or fails on a username uniqueness
violation. -/
def django_create_user (s : Store) (username email : String) :
    Except AuthError (Account × Store) :=
  if s.accounts.any (fun a => a.username == username) then
    .error .integrityError
  else
    let a : Account :=
      { username := username, email := email, first_name := "",
        last_name := "", is_active := true }
    .ok (a, { s with accounts := s.accounts ++ [a] })

/-- `user.save()`: writes the row back, keyed by username. -/
def django_save (s : Store) (a : Account) : Store :=
  { s with accounts := s.accounts.map fun b => if b.username == a.username then a else b }

/-- `UserProfile.objects.get_or_create(user=user)`, keyed by username. -/
def profile_get_or_create (s : Store) (username : String) : Store :=
  if s.profiles.contains username then s
  else { s with profiles := s.profiles ++ [username] }

/-- `GlobusOIDCBackend.create_user`: validate the MIT identity, derive the
username from the EPPN, create the Django user, set name fields from the
claims, mark active, save, and ensure the `UserProfile` exists. The store in
the result is the store after the call, also on error. -/
def create_user (claims : Claims) (store : Store) :
    Except AuthError Account × Store :=
  if !validate_mit_identity claims then
    (.error (.permissionDenied "Authentication requires MIT credentials"), store)
  else
    match extract_mit_eppn claims with
    | none =>
        (.error (.suspiciousOperation "No valid MIT EPPN found in claims"), store)
    | some e =>
        if !pyTruthyStr e || !pyContains e '@' then
          (.error (.suspiciousOperation "No valid MIT EPPN found in claims"), store)
        else
          let username := get_username_from_eppn e
          let email := claims.email.getD e
          match django_create_user store username email with
          | .error err => (.error err, store)
          | .ok (user0, store1) =>
              let user1 := { user0 with
                first_name := claims.given_name.getD ""
                last_name := claims.family_name.getD "" }
              let user2 :=
                if !pyTruthyStr user1.first_name && pyTruthy claims.name then
                  let parts := splitOnceAtSpace (claims.name.getD "")
                  match parts.2 with
                  | some rest => { user1 with first_name := parts.1, last_name := rest }
                  | none => { user1 with first_name := parts.1 }
                else user1
              let user3 := { user2 with is_active := true }
              let store2 := django_save store1 user3
              let store3 := profile_get_or_create store2 user3.username
              (.ok user3, store3)

/-- `GlobusOIDCBackend.update_user`: validate the MIT identity, reactivate the
user if inactive, ensure the `UserProfile` exists, return the user. The store
in the result is the store after the call, also on error. -/
def update_user (user : Account) (claims : Claims) (store : Store) :
    Except AuthError Account × Store :=
  if !validate_mit_identity claims then
    (.error (.permissionDenied "Authentication requires MIT credentials"), store)
  else
    let stateAfterActive :=
      if !user.is_active then
        let u := { user with is_active := true }
        (u, django_save store u)
      else (user, store)
    let user1 := stateAfterActive.1
    let store1 := stateAfterActive.2
    let store2 := profile_get_or_create store1 user1.username
    (.ok user1, store2)

/-- `GlobusOIDCBackend.filter_users_by_claims`: empty on a failed MIT check,
else lookup by EPPN-derived username, falling back to lookup by email. -/
def filter_users_by_claims (claims : Claims) (store : Store) : List Account :=
  if !validate_mit_identity claims then []
  else
    let eppn := extract_mit_eppn claims
    let byUsername : List Account :=
      match eppn with
      | some e =>
          if pyTruthyStr e && pyContains e '@' then
            store.accounts.filter fun a => a.username == get_username_from_eppn e
          else []
      | none => []
    if !byUsername.isEmpty then byUsername
    else
      match claims.email with
      | some m =>
          if pyTruthyStr m then
            let byEmail := store.accounts.filter fun a => a.email == m
            if !byEmail.isEmpty then byEmail else []
          else []
      | none => []

/-- Name pair computed by the creation path of `create_user`: given/family
names from the claims, overridden by a split of the combined `name` claim at
the first space when the given name is empty and a `name` claim is truthy.
This is a proof-layer abbreviation of what `create_user` builds, used to
state run lemmas; it introduces no behavior of its own. -/
def createdNames (claims : Claims) : String × String :=
  if !pyTruthyStr (claims.given_name.getD "") && pyTruthy claims.name then
    match (splitOnceAtSpace (claims.name.getD "")).2 with
    | some rest => ((splitOnceAtSpace (claims.name.getD "")).1, rest)
    | none => ((splitOnceAtSpace (claims.name.getD "")).1, claims.family_name.getD "")
  else (claims.given_name.getD "", claims.family_name.getD "")

/-- Account produced by a successful `create_user` run (proof-layer
abbreviation). -/
def createdAccount (claims : Claims) (e : String) : Account :=
  ⟨get_username_from_eppn e, claims.email.getD e,
    (createdNames claims).1, (createdNames claims).2, true⟩

/-! ### Helper lemmas -/

lemma data_eq_nil_iff (s : String) : s.data = [] ↔ s = "" := by
  constructor
  · intro h; exact String.ext h
  · intro h; subst h; rfl

lemma pyTruthyStr_iff (s : String) : pyTruthyStr s = true ↔ s.data ≠ [] := by
  unfold pyTruthyStr
  rw [Bool.not_eq_true', List.isEmpty_eq_false]

lemma pyEndsWith_mit (s : String) (h : pyEndsWith s "@mit.edu" = true) :
    s.data ≠ [] ∧ pyContains s '@' = true := by
  unfold pyEndsWith at h
  rw [List.isSuffixOf_iff_suffix] at h
  obtain ⟨t, ht⟩ := h
  constructor
  · intro hnil
    rw [hnil] at ht
    exact absurd (List.append_eq_nil.mp ht).2 (by decide)
  · have hm : '@' ∈ s.data := by
      rw [← ht]
      exact List.mem_append_right t (by decide)
    show List.elem '@' s.data = true
    exact List.elem_iff.mpr hm

lemma find?_first_split {α : Type} (p : α → Bool) (pre post : List α) (x : α)
    (hpre : ∀ y ∈ pre, p y = false) (hx : p x = true) :
    (pre ++ x :: post).find? p = some x := by
  induction pre with
  | nil => simp [List.find?_cons, hx]
  | cons a l ih =>
      have ha := hpre a (by simp)
      simp only [List.cons_append, List.find?_cons, ha]
      exact ih fun y hy => hpre y (by simp [hy])

/-! ### Key selector theorems -/

/-- Claim C1: when the token header carries a truthy `kid` equal to the `kid`
of some key, `retrieve_matching_jwk` returns the first such key, regardless of
any algorithm comparison between that key and the header, taking priority over
the single-key and algorithm-match fallbacks. -/
theorem kid_match_takes_priority
    (pre post : List Key) (key : Key) (header : TokenHeader) (k : String)
    (hkid : header.kid = some k) (hk : k ≠ "")
    (hpre : ∀ p ∈ pre, p.kid ≠ some k)
    (hkey : key.kid = some k) :
    retrieve_matching_jwk (.ok (some (pre ++ key :: post))) (some header) = .ok key := by
  have htr : pyTruthy (some k) = true := by
    show pyTruthyStr k = true
    exact (pyTruthyStr_iff k).mpr fun hn => hk (String.ext hn)
  have hfind : (pre ++ key :: post).find?
      (fun kk => pyTruthy header.kid && kk.kid == header.kid) = some key := by
    rw [hkid]
    apply find?_first_split
    · intro y hy
      have hne : (y.kid == some k) = false := beq_eq_false_iff_ne.mpr (hpre y hy)
      simp [htr, hne]
    · simp [htr, beq_iff_eq.mpr hkey]
  simp [retrieve_matching_jwk, hfind]

/-- Witness for C1: a two-key set where the matching key declares RS256 while
the token header declares RS512. -/
theorem kid_match_takes_priority_witness :
    retrieve_matching_jwk
      (.ok (some [⟨some "a", some "RS256", "m1"⟩, ⟨some "b", some "RS256", "m2"⟩]))
      (some ⟨some "b", some "RS512"⟩) = .ok ⟨some "b", some "RS256", "m2"⟩ :=
  kid_match_takes_priority [⟨some "a", some "RS256", "m1"⟩] []
    ⟨some "b", some "RS256", "m2"⟩ ⟨some "b", some "RS512"⟩ "b"
    rfl (by decide) (by decide) rfl

/-- Claim C4: with no `kid` match, a single-key set yields that key
unconditionally; otherwise the first key whose declared `alg` equals the
header's declared `alg` is returned, and if no key's `alg` matches the call
fails with the key-selection error. -/
theorem single_key_and_alg_fallbacks
    (keys : List Key) (header : TokenHeader)
    (hnokid : ∀ key ∈ keys, ¬(pyTruthy header.kid = true ∧ key.kid = header.kid)) :
    (∀ key, keys = [key] →
        retrieve_matching_jwk (.ok (some keys)) (some header) = .ok key) ∧
    (2 ≤ keys.length →
      (∀ pre key post, keys = pre ++ key :: post →
          (∀ p ∈ pre, p.alg ≠ header.alg) → key.alg = header.alg →
          retrieve_matching_jwk (.ok (some keys)) (some header) = .ok key) ∧
      ((∀ key ∈ keys, key.alg ≠ header.alg) →
          retrieve_matching_jwk (.ok (some keys)) (some header) =
            .error (.suspiciousOperation "Could not find matching JWKS key for ID token"))) := by
  have hfindnone : keys.find?
      (fun kk => pyTruthy header.kid && kk.kid == header.kid) = none := by
    rw [List.find?_eq_none]
    intro x hx hpx
    rw [Bool.and_eq_true] at hpx
    exact hnokid x hx ⟨hpx.1, beq_iff_eq.mp hpx.2⟩
  refine ⟨?_, ?_⟩
  · intro key hkeys
    subst hkeys
    simp [retrieve_matching_jwk, hfindnone]
  · intro hlen
    have h1 : keys.length ≠ 1 := by omega
    have hne : keys ≠ [] := by
      intro h; subst h; simp at hlen
    refine ⟨?_, ?_⟩
    · intro pre key post hsplit hpre hkey
      have hfind2 : keys.find? (fun kk => kk.alg == header.alg) = some key := by
        rw [hsplit]
        apply find?_first_split
        · intro y hy
          exact beq_eq_false_iff_ne.mpr (hpre y hy)
        · exact beq_iff_eq.mpr hkey
      simp [retrieve_matching_jwk, hfindnone, hfind2, h1, hne]
    · intro hnoalg
      have hfind3 : keys.find? (fun kk => kk.alg == header.alg) = none := by
        rw [List.find?_eq_none]
        intro x hx hpx
        exact hnoalg x hx (beq_iff_eq.mp hpx)
      simp [retrieve_matching_jwk, hfindnone, hfind3, h1, hne]

/-- Witness for C4: a two-key set with no `kid` match where the second key's
declared algorithm equals the header's. -/
theorem single_key_and_alg_fallbacks_witness :
    retrieve_matching_jwk
      (.ok (some [⟨some "a", some "RS256", "m1"⟩, ⟨some "c", some "RS512", "m3"⟩]))
      (some ⟨some "zz", some "RS512"⟩) = .ok ⟨some "c", some "RS512", "m3"⟩ :=
  ((single_key_and_alg_fallbacks
      [⟨some "a", some "RS256", "m1"⟩, ⟨some "c", some "RS512", "m3"⟩]
      ⟨some "zz", some "RS512"⟩ (by decide)).2 (by decide)).1
    [⟨some "a", some "RS256", "m1"⟩] ⟨some "c", some "RS512", "m3"⟩ []
    rfl (by decide) rfl

/-- Claim C5: a transport failure or non-2xx response, an invalid-JSON body,
and an empty or absent key list each make `retrieve_matching_jwk` fail with
the corresponding key-selection error, for every token-header outcome. -/
theorem jwk_fetch_errors (header? : Option TokenHeader) :
    retrieve_matching_jwk .transportError header? =
      .error (.suspiciousOperation "Could not fetch JWKS from identity provider") ∧
    retrieve_matching_jwk .invalidJson header? =
      .error (.suspiciousOperation "Invalid JWKS response from identity provider") ∧
    retrieve_matching_jwk (.ok (some [])) header? =
      .error (.suspiciousOperation "JWKS contains no keys") ∧
    retrieve_matching_jwk (.ok none) header? =
      .error (.suspiciousOperation "JWKS contains no keys") :=
  ⟨rfl, rfl, rfl, rfl⟩

/-! ### Identity mapper theorems -/

/-- Claim C2: claims that fail the MIT-identity check make both `create_user`
and `update_user` fail with `PermissionDenied`, and the account store is
returned unchanged. -/
theorem auth_denied_no_account_mutation
    (claims : Claims) (store : Store) (user : Account)
    (hval : validate_mit_identity claims = false) :
    create_user claims store =
      (.error (.permissionDenied "Authentication requires MIT credentials"), store) ∧
    update_user user claims store =
      (.error (.permissionDenied "Authentication requires MIT credentials"), store) := by
  constructor
  · simp [create_user, hval]
  · simp [update_user, hval]

/-- Witness for C2: claims whose only linked identity is not at MIT. -/
theorem auth_denied_no_account_mutation_witness :
    create_user ⟨some [⟨some "xyz@other.org"⟩], none, none, none, none, none, none⟩
        ⟨[], []⟩ =
      (.error (.permissionDenied "Authentication requires MIT credentials"), ⟨[], []⟩) ∧
    update_user ⟨"cnh", "cnh@example.com", "", "", true⟩
        ⟨some [⟨some "xyz@other.org"⟩], none, none, none, none, none, none⟩ ⟨[], []⟩ =
      (.error (.permissionDenied "Authentication requires MIT credentials"), ⟨[], []⟩) :=
  auth_denied_no_account_mutation
    ⟨some [⟨some "xyz@other.org"⟩], none, none, none, none, none, none⟩ ⟨[], []⟩
    ⟨"cnh", "cnh@example.com", "", "", true⟩ (by decide)

/-- Claim C6: `validate_mit_identity` is true iff some `identity_set` entry
has a username ending in `@mit.edu`; a missing or empty `identity_set` makes
it false, and the result depends only on the `identity_set` field. -/
theorem validate_iff_mit_suffix (claims : Claims) :
    (validate_mit_identity claims = true ↔
      ∃ identity ∈ claims.identity_set.getD [],
        "@mit.edu".data <:+ (identity.username.getD "").data) ∧
    (claims.identity_set = none → validate_mit_identity claims = false) ∧
    (claims.identity_set = some [] → validate_mit_identity claims = false) ∧
    (∀ other : Claims, other.identity_set = claims.identity_set →
      validate_mit_identity other = validate_mit_identity claims) := by
  refine ⟨?_, ?_, ?_, ?_⟩
  · simp [validate_mit_identity, pyEndsWith, List.any_eq_true,
      List.isSuffixOf_iff_suffix]
  · intro h; simp [validate_mit_identity, h]
  · intro h; simp [validate_mit_identity, h]
  · intro other h; rw [validate_mit_identity, validate_mit_identity, h]

/-- Witness for C6: a singleton identity set with an MIT username. -/
theorem validate_iff_mit_suffix_witness :
    ∃ identity ∈ ((⟨some [⟨some "cnh@mit.edu"⟩], none, none, none, none, none,
        none⟩ : Claims).identity_set.getD []),
      "@mit.edu".data <:+ (identity.username.getD "").data :=
  (validate_iff_mit_suffix
    ⟨some [⟨some "cnh@mit.edu"⟩], none, none, none, none, none, none⟩).1.mp
    (by decide)

lemma validate_gives_find (claims : Claims)
    (hval : validate_mit_identity claims = true) :
    ∃ identity, (claims.identity_set.getD []).find?
        (fun i => pyEndsWith (i.username.getD "") "@mit.edu") = some identity := by
  rw [validate_mit_identity] at hval
  have hs : ((claims.identity_set.getD []).find?
      (fun i => pyEndsWith (i.username.getD "") "@mit.edu")).isSome = true := by
    rw [List.find?_isSome]
    exact List.any_eq_true.mp hval
  exact Option.isSome_iff_exists.mp hs

lemma extract_of_validate (claims : Claims)
    (hval : validate_mit_identity claims = true) :
    ∃ identity, (claims.identity_set.getD []).find?
        (fun i => pyEndsWith (i.username.getD "") "@mit.edu") = some identity ∧
      extract_mit_eppn claims = some (identity.username.getD "") ∧
      pyEndsWith (identity.username.getD "") "@mit.edu" = true := by
  obtain ⟨i, hi⟩ := validate_gives_find claims hval
  have hp0 := List.find?_some hi
  have hp : pyEndsWith (i.username.getD "") "@mit.edu" = true := hp0
  have hnn := (pyEndsWith_mit _ hp).1
  have htr : pyTruthy (some (i.username.getD "")) = true := by
    show pyTruthyStr _ = true
    exact (pyTruthyStr_iff _).mpr hnn
  exact ⟨i, hi, by simp [extract_mit_eppn, hi, htr], hp⟩

lemma django_create_user_error (s : Store) (u e : String) (err : AuthError)
    (h : django_create_user s u e = .error err) : err = .integrityError := by
  unfold django_create_user at h
  split at h
  · cases h; rfl
  · cases h

/-- Claim C10: whenever `validate_mit_identity` holds, `extract_mit_eppn`
yields a string ending in `@mit.edu` (hence truthy and containing `@`), so the
missing-identity-data error of `create_user` is unreachable after the gate. -/
theorem validate_implies_usable_eppn (claims : Claims)
    (hval : validate_mit_identity claims = true) :
    ∃ s, extract_mit_eppn claims = some s ∧
      pyEndsWith s "@mit.edu" = true ∧
      pyTruthyStr s = true ∧ pyContains s '@' = true ∧
      ∀ store : Store,
        (create_user claims store).1 ≠
          .error (.suspiciousOperation "No valid MIT EPPN found in claims") := by
  obtain ⟨i, hi, hex, hp⟩ := extract_of_validate claims hval
  have hmits := pyEndsWith_mit _ hp
  have htr : pyTruthyStr (i.username.getD "") = true := (pyTruthyStr_iff _).mpr hmits.1
  refine ⟨_, hex, hp, htr, hmits.2, ?_⟩
  intro store
  simp only [create_user, hval, hex, htr, hmits.2, Bool.not_true, Bool.not_false,
    Bool.or_self, Bool.false_eq_true, if_false, ite_false]
  split
  · rename_i err heq
    obtain rfl := django_create_user_error _ _ _ _ heq
    simp
  · simp

/-- Witness for C10: validated claims yield a usable `@mit.edu` EPPN. -/
theorem validate_implies_usable_eppn_witness :
    ∃ s, extract_mit_eppn
        ⟨some [⟨some "xyz@other.org"⟩, ⟨some "cnh@mit.edu"⟩], some "pref", none,
          none, none, none, none⟩ = some s ∧
      pyEndsWith s "@mit.edu" = true ∧
      pyTruthyStr s = true ∧ pyContains s '@' = true ∧
      ∀ store : Store,
        (create_user
            ⟨some [⟨some "xyz@other.org"⟩, ⟨some "cnh@mit.edu"⟩], some "pref", none,
              none, none, none, none⟩ store).1 ≠
          .error (.suspiciousOperation "No valid MIT EPPN found in claims") :=
  validate_implies_usable_eppn
    ⟨some [⟨some "xyz@other.org"⟩, ⟨some "cnh@mit.edu"⟩], some "pref", none,
      none, none, none, none⟩ (by decide)

lemma takeWhile_before_char (l r : List Char) (c : Char) (h : c ∉ l) :
    (l ++ c :: r).takeWhile (fun x => x != c) = l := by
  induction l with
  | nil => simp [List.takeWhile_cons]
  | cons a t ih =>
      have ha : (a != c) = true := by
        simp only [bne_iff_ne]
        intro hac
        exact h (by simp [hac])
      simp only [List.cons_append, List.takeWhile_cons, ha]
      rw [ih fun hm => h (List.mem_cons_of_mem a hm)]
      simp

lemma concat_at_data (stem rest : String) :
    (stem ++ "@" ++ rest).data = stem.data ++ '@' :: rest.data := by
  rw [String.data_append, String.data_append,
    show ("@" : String).data = ['@'] from rfl, List.append_assoc,
    List.singleton_append]

lemma pySplitHead_concat (stem rest : String)
    (h : pyContains stem '@' = false) :
    pySplitHead (stem ++ "@" ++ rest) '@' = stem := by
  have hmem : '@' ∉ stem.data := by
    intro hm
    have : stem.data.contains '@' = true := by
      show List.elem '@' stem.data = true
      exact List.elem_iff.mpr hm
    rw [pyContains] at h
    rw [this] at h
    cases h
  apply String.ext
  show ((stem ++ "@" ++ rest).data.takeWhile fun x => x != '@') = stem.data
  rw [concat_at_data]
  exact takeWhile_before_char stem.data rest.data '@' hmem

/-- Claim C3: the derived username comes from the first `identity_set` entry
whose username ends in `@mit.edu`, with everything from the first `@` onward
stripped by `get_username_from_eppn`; with no such entry, `extract_mit_eppn`
falls back to `preferred_username`, then to the `username` claim, returning
the raw fallback value without stripping. -/
theorem username_derivation (claims : Claims) :
    (∀ identity stem rest,
        (claims.identity_set.getD []).find?
            (fun i => pyEndsWith (i.username.getD "") "@mit.edu") = some identity →
        identity.username.getD "" = stem ++ "@" ++ rest →
        pyContains stem '@' = false →
        extract_mit_eppn claims = some (stem ++ "@" ++ rest) ∧
        get_username_from_eppn (stem ++ "@" ++ rest) = stem) ∧
    ((∀ identity ∈ claims.identity_set.getD [],
        pyEndsWith (identity.username.getD "") "@mit.edu" = false) →
      extract_mit_eppn claims =
        match claims.preferred_username with
        | some v => some v
        | none => claims.username) := by
  constructor
  · intro identity stem rest hfind hu hnc
    have hnn : (stem ++ "@" ++ rest).data ≠ [] := by
      rw [concat_at_data]
      simp
    have htr : pyTruthyStr (stem ++ "@" ++ rest) = true :=
      (pyTruthyStr_iff _).mpr hnn
    have hc : pyContains (stem ++ "@" ++ rest) '@' = true := by
      show List.elem '@' (stem ++ "@" ++ rest).data = true
      rw [concat_at_data]
      exact List.elem_iff.mpr (by simp)
    constructor
    · have htr2 : pyTruthy (some (identity.username.getD "")) = true := by
        show pyTruthyStr _ = true
        rw [hu]
        exact htr
      rw [← hu]
      simp [extract_mit_eppn, hfind, htr2]
    · simp [get_username_from_eppn, htr, hc, pySplitHead_concat stem rest hnc]
  · intro hall
    have hfind : (claims.identity_set.getD []).find?
        (fun i => pyEndsWith (i.username.getD "") "@mit.edu") = none := by
      rw [List.find?_eq_none]
      intro x hx hpx
      rw [hall x hx] at hpx
      cases hpx
    simp [extract_mit_eppn, hfind, pyTruthy]

/-- Witness for C3: the linked identity `cnh@mit.edu` yields the stem `cnh`. -/
theorem username_derivation_witness :
    extract_mit_eppn ⟨some [⟨some "cnh@mit.edu"⟩], none, none, none, none, none,
        none⟩ = some ("cnh" ++ "@" ++ "mit.edu") ∧
    get_username_from_eppn ("cnh" ++ "@" ++ "mit.edu") = "cnh" :=
  (username_derivation
      ⟨some [⟨some "cnh@mit.edu"⟩], none, none, none, none, none, none⟩).1
    ⟨some "cnh@mit.edu"⟩ "cnh" "mit.edu" (by decide) (by decide) (by decide)

lemma profile_get_or_create_accounts (s : Store) (u : String) :
    (profile_get_or_create s u).accounts = s.accounts := by
  unfold profile_get_or_create
  split <;> rfl

lemma profile_get_or_create_mem (s : Store) (u : String) :
    u ∈ (profile_get_or_create s u).profiles := by
  unfold profile_get_or_create
  split
  · rename_i h
    exact List.elem_iff.mp h
  · simp

lemma create_user_run (claims : Claims) (store : Store) (e : String)
    (hval : validate_mit_identity claims = true)
    (heppn : extract_mit_eppn claims = some e)
    (htr : pyTruthyStr e = true) (hc : pyContains e '@' = true)
    (hany : store.accounts.any
      (fun a => a.username == get_username_from_eppn e) = false)
    (hmap : store.accounts.map
      (fun b => if b.username = get_username_from_eppn e
        then createdAccount claims e else b) = store.accounts) :
    create_user claims store =
      (.ok (createdAccount claims e),
       profile_get_or_create
         ⟨store.accounts ++ [createdAccount claims e], store.profiles⟩
         (get_username_from_eppn e)) := by
  have h1 : django_create_user store (get_username_from_eppn e)
      (claims.email.getD e) =
      .ok (⟨get_username_from_eppn e, claims.email.getD e, "", "", true⟩,
        ⟨store.accounts ++
          [⟨get_username_from_eppn e, claims.email.getD e, "", "", true⟩],
         store.profiles⟩) := by
    simp [django_create_user, hany]
  conv_lhs => rw [create_user]
  simp only [hval, heppn, htr, hc, Bool.not_true, Bool.not_false, Bool.or_self,
    Bool.false_eq_true, if_false, ite_false, h1]
  cases hcond : (!pyTruthyStr (claims.given_name.getD "") && pyTruthy claims.name) with
  | false =>
      simp only [createdAccount, createdNames, hcond, ite_false,
        Bool.false_eq_true] at hmap ⊢
      simp [django_save, List.map_append, hmap]
  | true =>
      cases hsp : (splitOnceAtSpace (claims.name.getD "")).2 with
      | none =>
          simp only [createdAccount, createdNames, hcond, hsp, ite_true] at hmap ⊢
          simp [django_save, List.map_append, hmap]
      | some rest =>
          simp only [createdAccount, createdNames, hcond, hsp, ite_true] at hmap ⊢
          simp [django_save, List.map_append, hmap]

/-- Claim C7: a first-time login with validated claims and a fresh derived
username creates exactly one new active account with the derived username,
the claims' email (falling back to the EPPN), names per the
given/family-name-then-split-name policy, and a profile for it. -/
theorem create_user_first_login (claims : Claims) (store : Store) (e : String)
    (hval : validate_mit_identity claims = true)
    (heppn : extract_mit_eppn claims = some e)
    (hsuffix : pyEndsWith e "@mit.edu" = true)
    (hfresh : ∀ a ∈ store.accounts, a.username ≠ get_username_from_eppn e) :
    ∃ user store2,
      create_user claims store = (.ok user, store2) ∧
      user.username = get_username_from_eppn e ∧
      user.email = claims.email.getD e ∧
      user.is_active = true ∧
      (pyTruthyStr (claims.given_name.getD "") = true →
        user.first_name = claims.given_name.getD "" ∧
        user.last_name = claims.family_name.getD "") ∧
      (pyTruthyStr (claims.given_name.getD "") = false →
        pyTruthy claims.name = true →
        user.first_name = (splitOnceAtSpace (claims.name.getD "")).1 ∧
        user.last_name =
          (splitOnceAtSpace (claims.name.getD "")).2.getD
            (claims.family_name.getD "")) ∧
      (pyTruthyStr (claims.given_name.getD "") = false →
        pyTruthy claims.name = false →
        user.first_name = "" ∧ user.last_name = claims.family_name.getD "") ∧
      store2.accounts = store.accounts ++ [user] ∧
      user.username ∈ store2.profiles := by
  have hmits := pyEndsWith_mit e hsuffix
  have htr : pyTruthyStr e = true := (pyTruthyStr_iff e).mpr hmits.1
  have hc := hmits.2
  have hany : store.accounts.any
      (fun a => a.username == get_username_from_eppn e) = false := by
    rw [Bool.eq_false_iff]
    intro hx
    obtain ⟨a, ha, hb⟩ := List.any_eq_true.mp hx
    exact hfresh a ha (beq_iff_eq.mp hb)
  have hmap : store.accounts.map
      (fun b => if b.username = get_username_from_eppn e
        then createdAccount claims e else b) = store.accounts := by
    have h2 : ∀ a ∈ store.accounts,
        (if a.username = get_username_from_eppn e
          then createdAccount claims e else a) = id a := by
      intro a ha
      simp [hfresh a ha]
    exact (List.map_congr_left h2).trans (List.map_id store.accounts)
  have hrun := create_user_run claims store e hval heppn htr hc hany hmap
  refine ⟨createdAccount claims e, _, hrun, rfl, rfl, rfl, ?_, ?_, ?_, ?_, ?_⟩
  · intro h
    simp [createdAccount, createdNames, h]
  · intro h hn
    simp only [createdAccount, createdNames, h, hn, Bool.not_false,
      Bool.and_self, ite_true]
    cases hsp : (splitOnceAtSpace (claims.name.getD "")).2 <;> simp [hsp]
  · intro h hn
    have hgn : claims.given_name.getD "" = "" := by
      have hdata : (claims.given_name.getD "").data = [] := by
        by_contra hd
        rw [(pyTruthyStr_iff _).mpr hd] at h
        cases h
      exact String.ext hdata
    simp [createdAccount, createdNames, h, hn, hgn]
  · exact profile_get_or_create_accounts _ _
  · exact profile_get_or_create_mem _ _

/-- Witness for C7: first login of `cnh@mit.edu` against an empty store. -/
theorem create_user_first_login_witness :
    ∃ user store2,
      create_user ⟨some [⟨some "cnh@mit.edu"⟩], none, none,
          some "cnh@example.com", some "Chris", some "Hill", none⟩ ⟨[], []⟩ =
        (.ok user, store2) ∧
      user.username = get_username_from_eppn "cnh@mit.edu" ∧
      user.email = "cnh@example.com" ∧
      store2.accounts = [] ++ [user] ∧
      user.username ∈ store2.profiles := by
  obtain ⟨u, s2, h1, h2, h3, _, _, _, _, h8, h9⟩ :=
    create_user_first_login
      ⟨some [⟨some "cnh@mit.edu"⟩], none, none, some "cnh@example.com",
        some "Chris", some "Hill", none⟩ ⟨[], []⟩ "cnh@mit.edu"
      (by decide) (by decide) (by decide) (by simp)
  exact ⟨u, s2, h1, h2, h3, h8, h9⟩

lemma django_save_usernames (s : Store) (a : Account) :
    (django_save s a).accounts.map (fun b => b.username) =
      s.accounts.map fun b => b.username := by
  unfold django_save
  rw [List.map_map]
  apply List.map_congr_left
  intro b hb
  simp only [Function.comp]
  split
  · rename_i h
    exact (beq_iff_eq.mp h).symm
  · rfl

lemma django_save_length (s : Store) (a : Account) :
    (django_save s a).accounts.length = s.accounts.length := by
  unfold django_save
  simp

/-- Claim C8: a returning login with validated claims returns the given
account reactivated, creates no account, ensures the profile exists, and
leaves the username, email and name fields unchanged. -/
theorem update_user_frame (user : Account) (claims : Claims) (store : Store)
    (hval : validate_mit_identity claims = true) :
    ∃ user2 store2,
      update_user user claims store = (.ok user2, store2) ∧
      user2.username = user.username ∧
      user2.email = user.email ∧
      user2.first_name = user.first_name ∧
      user2.last_name = user.last_name ∧
      user2.is_active = true ∧
      store2.accounts.map (fun a => a.username) =
        store.accounts.map (fun a => a.username) ∧
      store2.accounts.length = store.accounts.length ∧
      user2.username ∈ store2.profiles := by
  cases hact : user.is_active with
  | true =>
      refine ⟨user, profile_get_or_create store user.username,
        ?_, rfl, rfl, rfl, rfl, hact, ?_, ?_, ?_⟩
      · simp [update_user, hval, hact]
      · rw [profile_get_or_create_accounts]
      · rw [profile_get_or_create_accounts]
      · exact profile_get_or_create_mem _ _
  | false =>
      refine ⟨{ user with is_active := true },
        profile_get_or_create (django_save store { user with is_active := true })
          user.username,
        ?_, rfl, rfl, rfl, rfl, rfl, ?_, ?_, ?_⟩
      · simp [update_user, hval, hact]
      · rw [profile_get_or_create_accounts, django_save_usernames]
      · rw [profile_get_or_create_accounts, django_save_length]
      · exact profile_get_or_create_mem _ _

/-- Witness for C8: a second login reactivating a deactivated account. -/
theorem update_user_frame_witness :
    ∃ user2 store2,
      update_user ⟨"cnh", "cnh@example.com", "Chris", "Hill", false⟩
          ⟨some [⟨some "cnh@mit.edu"⟩], none, none, none, none, none, none⟩
          ⟨[⟨"cnh", "cnh@example.com", "Chris", "Hill", false⟩], []⟩ =
        (.ok user2, store2) ∧
      user2.username = "cnh" ∧
      user2.email = "cnh@example.com" ∧
      user2.first_name = "Chris" ∧
      user2.last_name = "Hill" ∧
      user2.is_active = true ∧
      store2.accounts.map (fun a => a.username) = ["cnh"] ∧
      store2.accounts.length = 1 ∧
      user2.username ∈ store2.profiles :=
  update_user_frame ⟨"cnh", "cnh@example.com", "Chris", "Hill", false⟩
    ⟨some [⟨some "cnh@mit.edu"⟩], none, none, none, none, none, none⟩
    ⟨[⟨"cnh", "cnh@example.com", "Chris", "Hill", false⟩], []⟩ (by decide)

/-- Claim C9: `filter_users_by_claims` returns the empty list on a failed MIT
check; otherwise it returns the username matches when any exist, falls back
to email matches only when the username lookup finds nothing, and returns the
empty list when neither lookup matches. -/
theorem filter_users_gate (claims : Claims) (store : Store) :
    (validate_mit_identity claims = false →
      filter_users_by_claims claims store = []) ∧
    (∀ e, validate_mit_identity claims = true →
      extract_mit_eppn claims = some e →
      (pyTruthyStr e && pyContains e '@') = true →
      ((store.accounts.filter
          (fun a => a.username == get_username_from_eppn e) ≠ [] →
          filter_users_by_claims claims store =
            store.accounts.filter
              fun a => a.username == get_username_from_eppn e) ∧
       (store.accounts.filter
          (fun a => a.username == get_username_from_eppn e) = [] →
          (∀ m, claims.email = some m → pyTruthyStr m = true →
              store.accounts.filter (fun a => a.email == m) ≠ [] →
              filter_users_by_claims claims store =
                store.accounts.filter fun a => a.email == m) ∧
          ((∀ m, claims.email = some m → pyTruthyStr m = true →
              store.accounts.filter (fun a => a.email == m) = []) →
            filter_users_by_claims claims store = [])))) := by
  constructor
  · intro h
    simp [filter_users_by_claims, h]
  · intro e hval he husable
    constructor
    · intro hby
      simp [filter_users_by_claims, hval, he, husable,
        List.isEmpty_eq_false.mpr hby]
    · intro hby
      constructor
      · intro m hm htm hbe
        simp [filter_users_by_claims, hval, he, husable, hby, hm, htm,
          List.isEmpty_eq_false.mpr hbe]
      · intro hall
        cases hm : claims.email with
        | none =>
            simp [filter_users_by_claims, hval, he, husable, hby, hm]
        | some m =>
            cases htm : pyTruthyStr m with
            | false =>
                simp [filter_users_by_claims, hval, he, husable, hby, hm, htm]
            | true =>
                have hbe := hall m hm htm
                simp [filter_users_by_claims, hval, he, husable, hby, hm, htm, hbe]

/-- Witness for C9: a store with a matching derived-username account. -/
theorem filter_users_gate_witness :
    filter_users_by_claims
        ⟨some [⟨some "cnh@mit.edu"⟩], none, none, none, none, none, none⟩
        ⟨[⟨"cnh", "x@y", "", "", true⟩], []⟩ =
      (⟨[⟨"cnh", "x@y", "", "", true⟩], []⟩ : Store).accounts.filter
        (fun a => a.username == get_username_from_eppn "cnh@mit.edu") :=
  ((filter_users_gate
      ⟨some [⟨some "cnh@mit.edu"⟩], none, none, none, none, none, none⟩
      ⟨[⟨"cnh", "x@y", "", "", true⟩], []⟩).2 "cnh@mit.edu"
    (by decide) (by decide) (by decide)).1 (by decide)

/-- Counterexample for C1 as stated: a decoded header whose `kid` is the
empty string, equal to the first key's `kid`, is not honored — the guard
`if kid and key_id == kid` treats an empty `kid` as absent, so the selector
falls through past the kid branch and, with two keys and no algorithm match,
fails instead of returning that key. -/
theorem kid_empty_match_not_honored :
    retrieve_matching_jwk
      (.ok (some [⟨some "", some "RS256", "m1"⟩, ⟨some "b", some "RS256", "m2"⟩]))
      (some ⟨some "", some "RS512"⟩) =
      .error (.suspiciousOperation "Could not find matching JWKS key for ID token") :=
  rfl
